import Mathlib

/-!
Verification of the real-estate automation pipeline (validator, data cleaner,
data adapter, quality scorer, legal compliance checker).

The Python code is shallowly embedded: Python scalar values that flow through
the record dictionaries are modelled by `PyVal` (None, str, int, bool; float
literals do not occur in the inputs the claims quantify over and numeric
parsing is modelled exactly over `ℚ`), dictionaries by association lists, and
fallible operations (Python exceptions) by `Except Unit`.
-/

set_option maxRecDepth 10000

namespace RealEstate

/-- Model of the Python scalar values stored in record dictionaries. -/
inductive PyVal where
  | none : PyVal
  | str (s : String) : PyVal
  | int (n : Int) : PyVal
  | bool (b : Bool) : PyVal
deriving DecidableEq, Repr

/-- Python truthiness: None and empty/zero/False values are falsy. -/
def truthy : PyVal → Bool
  | .none => false
  | .str s => s ≠ ""
  | .int n => n ≠ 0
  | .bool b => b

/-- Python str() conversion. -/
def pyStr : PyVal → String
  | .none => "None"
  | .str s => s
  | .int n => toString n
  | .bool b => if b then "True" else "False"

/-- Whitespace characters stripped by Python str.strip(). -/
def isWS (c : Char) : Bool :=
  c = ' ' || c = '\t' || c = '\n' || c = '\r' || c.toNat = 11 || c.toNat = 12

/-- Python str.strip(): remove leading and trailing whitespace. -/
def pyStrip (s : String) : String :=
  ⟨((s.data.dropWhile isWS).reverse.dropWhile isWS).reverse⟩

/-- Python == between the modelled scalar values (bool compares equal to
the corresponding int, as in Python). -/
def pyEq : PyVal → PyVal → Bool
  | .none, .none => true
  | .str s, .str t => s = t
  | .int m, .int n => m = n
  | .bool a, .bool b => a = b
  | .bool a, .int n => (if a then (1 : Int) else 0) = n
  | .int n, .bool a => n = (if a then (1 : Int) else 0)
  | _, _ => false

/-- Numeric value of a list of decimal digit characters. -/
def digitsVal (l : List Char) : Nat :=
  l.foldl (fun a c => a * 10 + (c.toNat - 48)) 0

/-- Value of an unsigned decimal string over digit and dot characters:
at most one dot and at least one digit, as accepted by Python float().
Returns the exact rational value. -/
def decValue (l : List Char) : Option ℚ :=
  if l.all (fun c => c.isDigit || c = '.') && l.any Char.isDigit
      && (l.filter (fun c => c = '.')).length ≤ 1 then
    let ip := l.takeWhile Char.isDigit
    let rest := l.dropWhile Char.isDigit
    match rest with
    | [] => some (digitsVal ip)
    | _ :: fp => some ((digitsVal ip : ℚ) + (digitsVal fp : ℚ) / (10 : ℚ) ^ fp.length)
  else
    Option.none

/-- Signed decimal string value (an optional leading sign then a decimal
body), after stripping surrounding whitespace: models Python float(str). -/
def floatOfString (s : String) : Option ℚ :=
  match (pyStrip s).data with
  | '+' :: rest => decValue rest
  | '-' :: rest => (decValue rest).map (fun q => -q)
  | l => decValue l

/-- Python float(v) over the modelled values; raises (TypeError/ValueError)
on None and on unparsable strings. -/
def pyFloat : PyVal → Except Unit ℚ
  | .none => .error ()
  | .str s =>
      match floatOfString s with
      | some q => .ok q
      | Option.none => .error ()
  | .int n => .ok n
  | .bool b => .ok (if b then 1 else 0)

/-- Python int(v) over the modelled values; accepts optionally signed digit
strings (surrounding whitespace allowed), raises otherwise. -/
def pyInt : PyVal → Except Unit Int
  | .none => .error ()
  | .str s =>
      match (pyStrip s).data with
      | '+' :: rest =>
          if rest ≠ [] && rest.all Char.isDigit then .ok (digitsVal rest) else .error ()
      | '-' :: rest =>
          if rest ≠ [] && rest.all Char.isDigit then .ok (-(digitsVal rest : Int)) else .error ()
      | l =>
          if l ≠ [] && l.all Char.isDigit then .ok (digitsVal l) else .error ()
  | .int n => .ok n
  | .bool b => .ok (if b then 1 else 0)

/-- Record dictionaries: association lists from field name to value. -/
abbrev Dict := List (String × PyVal)

/-- dict.get(k) returning an option (None default in Python). -/
def dictGet (d : Dict) (k : String) : Option PyVal :=
  (d.find? (fun p => p.1 = k)).map (fun p => p.2)

/-- dict.get(k, default). -/
def dictGetD (d : Dict) (k : String) (v : PyVal) : PyVal :=
  (dictGet d k).getD v

/-- dict.get(k) with Python None default, as a PyVal. -/
def dictGetN (d : Dict) (k : String) : PyVal :=
  dictGetD d k .none

/-! ## validator.py: validate_israeli_id -/

/-- Python str.zfill(n) on a digit string: left-pad with zeros to length n. -/
def zfill (n : Nat) (s : String) : String :=
  ⟨List.replicate (n - s.length) '0' ++ s.data⟩

/-- Luhn adjustment used by the ID checksum: subtract 9 from products above 9. -/
def luhnAdjust (n : Nat) : Nat :=
  if n > 9 then n - 9 else n

/-- The weighted digit sum of the Israeli ID algorithm: digit at 0-indexed
position i is multiplied by (i % 2) + 1 and adjusted. -/
def idSum (l : List Char) : Nat :=
  (l.enum.map (fun p => luhnAdjust ((p.2.toNat - 48) * (p.1 % 2 + 1)))).sum

/-- validate_israeli_id from validator.py: strip, require non-empty all-digit,
zero-fill to 9, require length exactly 9, accept iff the weighted sum is
divisible by 10. -/
def validate_israeli_id (id_number : String) : Bool :=
  let id_str := pyStrip id_number
  if id_str = "" || !(id_str.data.all Char.isDigit) then false
  else
    let z := zfill 9 id_str
    if z.length ≠ 9 then false
    else idSum z.data % 10 == 0

example : validate_israeli_id "123456782" = true := by decide
example : validate_israeli_id "123456789" = false := by decide
example : validate_israeli_id " 123456782 " = true := by decide
example : validate_israeli_id "1234567820" = false := by decide

/-! ## validator.py: the other field validators -/

/-- validate_israeli_phone: drop whitespace, hyphens and parentheses, then the
result must be 0, a digit 2-9, and 7 or 8 further digits. -/
def validate_israeli_phone (phone : String) : Bool :=
  let cleaned := phone.data.filter (fun c => !(isWS c || c = '-' || c = '(' || c = ')'))
  match cleaned with
  | '0' :: c :: rest =>
      ('2' ≤ c && c ≤ '9') && rest.all Char.isDigit
        && (rest.length = 7 || rest.length = 8)
  | _ => false

def isEmailLocalChar (c : Char) : Bool :=
  c.isAlpha || c.isDigit || c = '.' || c = '_' || c = '%' || c = '+' || c = '-'

def isEmailDomainChar (c : Char) : Bool :=
  c.isAlpha || c.isDigit || c = '.' || c = '-'

/-- Matches the regex tail after the at-sign: one or more domain characters,
a dot, then at least two letters (an existential over the dot position,
exactly the set of strings the backtracking regex accepts). -/
def emailTailMatch (l : List Char) : Bool :=
  (List.range l.length).any (fun i =>
    1 ≤ i && l.getD i ' ' = '.' && (l.take i).all isEmailDomainChar
      && 2 ≤ (l.drop (i + 1)).length && (l.drop (i + 1)).all Char.isAlpha)

/-- validate_email from validator.py (the anchored regex, split at the
at-sign, which can occur in neither character class). -/
def validate_email (email : String) : Bool :=
  let l := email.data
  let loc := l.takeWhile (fun c => c ≠ '@')
  loc.length < l.length && loc ≠ [] && loc.all isEmailLocalChar
    && emailTailMatch (l.drop (loc.length + 1))

/-- validate_hebrew_name: str() the value and look for a Hebrew character. -/
def validate_hebrew_name (name : PyVal) : Bool :=
  (pyStr name).data.any (fun c => 0x590 ≤ c.toNat && c.toNat ≤ 0x5FF)

/-- Dates as parsed by datetime.strptime with format year-month-day. -/
structure Date where
  year : Nat
  month : Nat
  day : Nat
deriving DecidableEq, Repr

def isLeap (y : Nat) : Bool :=
  y % 4 = 0 && (y % 100 ≠ 0 || y % 400 = 0)

def daysInMonth (y m : Nat) : Nat :=
  if m = 2 then (if isLeap y then 29 else 28)
  else if m = 4 || m = 6 || m = 9 || m = 11 then 30
  else 31

/-- Lexicographic comparison of dates (datetime comparison). -/
def dateLe (a b : Date) : Bool :=
  a.year < b.year
    || (a.year = b.year
        && (a.month < b.month || (a.month = b.month && a.day ≤ b.day)))

/-- One 1-or-2-digit strptime field (month or day): two digits are consumed
greedily when available; a failed two-digit value cannot fall back to one
digit because the following literal separator would not match a digit. -/
def parseMD : List Char → Option (Nat × List Char)
  | c1 :: c2 :: rest =>
      if c1.isDigit && c2.isDigit then some (digitsVal [c1, c2], rest)
      else if c1.isDigit then some (digitsVal [c1], c2 :: rest)
      else Option.none
  | [c1] => if c1.isDigit then some (digitsVal [c1], []) else Option.none
  | [] => Option.none

/-- strptime with format year-month-day followed by datetime construction:
exactly four year digits, 1-2 digit month and day, nothing left over, and a
calendar-valid (year at least 1) date. -/
def parseDate (s : String) : Option Date :=
  match s.data with
  | y1 :: y2 :: y3 :: y4 :: '-' :: rest =>
      if [y1, y2, y3, y4].all Char.isDigit then
        let y := digitsVal [y1, y2, y3, y4]
        match parseMD rest with
        | some (m, '-' :: rest2) =>
            match parseMD rest2 with
            | some (d, []) =>
                if 1 ≤ y && 1 ≤ m && m ≤ 12 && 1 ≤ d && d ≤ daysInMonth y m then
                  some ⟨y, m, d⟩
                else Option.none
            | _ => Option.none
        | _ => Option.none
      else Option.none
  | _ => Option.none

/-- validate_date: str() then strptime, catching the parse failure. -/
def validate_date (date_str : PyVal) : Bool :=
  (parseDate (pyStr date_str)).isSome

/-- A run of 1 to n digits and nothing else (the anchored digit-run regexes
for block, parcel and sub-parcel numbers). -/
def digitSpan (n : Nat) (s : String) : Bool :=
  s.data.all Char.isDigit && 1 ≤ s.length && s.length ≤ n

/-- validate_block_number: str(), strip, 1 to 6 digits. -/
def validate_block_number (block : PyVal) : Bool :=
  digitSpan 6 (pyStrip (pyStr block))

/-- validate_parcel_number: str(), strip, 1 to 5 digits. -/
def validate_parcel_number (parcel : PyVal) : Bool :=
  digitSpan 5 (pyStrip (pyStr parcel))

/-- float(v) in a range, catching conversion failure. -/
def floatRange (lo hi : ℚ) (v : PyVal) : Bool :=
  match pyFloat v with
  | .ok p => lo ≤ p && p ≤ hi
  | .error _ => false

def validate_price (price : PyVal) : Bool := floatRange 50000 100000000 price

def validate_area (area : PyVal) : Bool := floatRange 10 5000 area

def validate_rooms (rooms : PyVal) : Bool := floatRange 1 20 rooms

/-- validate_delivery_after_signing: both dates must parse and delivery must
be on or after signing; a parse failure yields false. -/
def validate_delivery_after_signing (signing delivery : PyVal) : Bool :=
  match parseDate (pyStr signing), parseDate (pyStr delivery) with
  | some s, some d => dateLe s d
  | _, _ => false

/-! ## validator.py: the rule registry and run_validation -/

/-- A per-field predicate (which can raise, and may consult today for the
future-signing-date rule), or a cross-field rule evaluated by name in
run_validation, as in the source registry. -/
inductive VCheck where
  | pred (f : Date → PyVal → Except Unit Bool)
  | cross

structure VRule where
  name : String
  field : String
  msg : String
  check : VCheck

/-- The check shared by all the required-field rules. -/
def requiredChk : Date → PyVal → Except Unit Bool :=
  fun _ v => .ok (truthy v && pyStrip (pyStr v) ≠ "")

/-- Rules that call str.strip() or the re module directly raise on values
that are not strings. -/
def strOnly (f : String → Bool) : Date → PyVal → Except Unit Bool :=
  fun _ v => match v with
    | .str s => .ok (f s)
    | _ => .error ()

/-- A value that is None or str()-blank fails the presence checks for the
numeric fields. -/
def presentChk : Date → PyVal → Except Unit Bool :=
  fun _ v => .ok (v ≠ .none && pyStrip (pyStr v) ≠ "")

/-- Python membership of the value in a tuple of string constants. -/
def inStrs (ss : List String) (v : PyVal) : Bool :=
  ss.any (fun s => pyEq v (.str s))

/-- The cross-field rule comparing seller and buyer IDs. -/
def dpRule : VRule :=
  ⟨"different_parties", "seller_id", "תעודת זהות מוכר וקונה זהות", .cross⟩

/-- The future_signing_date predicate: an empty value passes, otherwise the
value must parse and be on or after today; a parse failure raises. -/
def fsCheck : Date → PyVal → Except Unit Bool :=
  fun today v =>
    if !truthy v then .ok true
    else match parseDate (pyStr v) with
         | some dt => .ok (dateLe today dt)
         | Option.none => .error ()

/-- The future_signing_date rule. -/
def fsRule : VRule :=
  ⟨"future_signing_date", "signing_date", "תאריך חתימה חייב להיות בעתיד", .pred fsCheck⟩

def VALIDATION_RULES : List VRule := [
  ⟨"seller_name_required", "seller_name", "שם המוכר חסר", .pred requiredChk⟩,
  ⟨"seller_name_hebrew", "seller_name", "שם המוכר חייב להכיל אותיות בעברית",
    .pred (fun _ v => .ok (validate_hebrew_name v))⟩,
  ⟨"seller_name_length", "seller_name", "שם המוכר חייב להיות בין 2 ל-100 תווים",
    .pred (fun _ v => .ok (2 ≤ (pyStrip (pyStr v)).length && (pyStrip (pyStr v)).length ≤ 100))⟩,
  ⟨"seller_id_required", "seller_id", "תעודת זהות מוכר חסרה", .pred requiredChk⟩,
  ⟨"seller_id_valid", "seller_id", "תעודת זהות מוכר לא תקינה", .pred (strOnly validate_israeli_id)⟩,
  ⟨"seller_address_required", "seller_address", "כתובת מוכר חסרה", .pred requiredChk⟩,
  ⟨"seller_address_length", "seller_address", "כתובת מוכר קצרה מדי",
    .pred (fun _ v => .ok (5 ≤ (pyStrip (pyStr v)).length))⟩,
  ⟨"seller_phone_required", "seller_phone", "טלפון מוכר חסר", .pred requiredChk⟩,
  ⟨"seller_phone_valid", "seller_phone", "טלפון מוכר לא תקין", .pred (strOnly validate_israeli_phone)⟩,
  ⟨"seller_email_required", "seller_email", "דוא\"ל מוכר חסר", .pred requiredChk⟩,
  ⟨"seller_email_valid", "seller_email", "דוא\"ל מוכר לא תקין", .pred (strOnly validate_email)⟩,
  ⟨"buyer_name_required", "buyer_name", "שם הקונה חסר", .pred requiredChk⟩,
  ⟨"buyer_name_hebrew", "buyer_name", "שם הקונה חייב להכיל אותיות בעברית",
    .pred (fun _ v => .ok (validate_hebrew_name v))⟩,
  ⟨"buyer_name_length", "buyer_name", "שם הקונה חייב להיות בין 2 ל-100 תווים",
    .pred (fun _ v => .ok (2 ≤ (pyStrip (pyStr v)).length && (pyStrip (pyStr v)).length ≤ 100))⟩,
  ⟨"buyer_id_required", "buyer_id", "תעודת זהות קונה חסרה", .pred requiredChk⟩,
  ⟨"buyer_id_valid", "buyer_id", "תעודת זהות קונה לא תקינה", .pred (strOnly validate_israeli_id)⟩,
  ⟨"buyer_address_required", "buyer_address", "כתובת קונה חסרה", .pred requiredChk⟩,
  ⟨"buyer_address_length", "buyer_address", "כתובת קונה קצרה מדי",
    .pred (fun _ v => .ok (5 ≤ (pyStrip (pyStr v)).length))⟩,
  ⟨"buyer_phone_required", "buyer_phone", "טלפון קונה חסר", .pred requiredChk⟩,
  ⟨"buyer_phone_valid", "buyer_phone", "טלפון קונה לא תקין", .pred (strOnly validate_israeli_phone)⟩,
  ⟨"buyer_email_required", "buyer_email", "דוא\"ל קונה חסר", .pred requiredChk⟩,
  ⟨"buyer_email_valid", "buyer_email", "דוא\"ל קונה לא תקין", .pred (strOnly validate_email)⟩,
  ⟨"property_address_required", "property_address", "כתובת נכס חסרה", .pred requiredChk⟩,
  ⟨"property_address_length", "property_address", "כתובת נכס קצרה מדי",
    .pred (fun _ v => .ok (5 ≤ (pyStrip (pyStr v)).length))⟩,
  ⟨"block_required", "block_number", "מספר גוש חסר", .pred requiredChk⟩,
  ⟨"block_valid", "block_number", "מספר גוש לא תקין",
    .pred (fun _ v => .ok (validate_block_number v))⟩,
  ⟨"parcel_required", "parcel_number", "מספר חלקה חסר", .pred requiredChk⟩,
  ⟨"parcel_valid", "parcel_number", "מספר חלקה לא תקין",
    .pred (fun _ v => .ok (validate_parcel_number v))⟩,
  ⟨"area_required", "area_sqm", "שטח הנכס חסר", .pred presentChk⟩,
  ⟨"area_valid", "area_sqm", "שטח הנכס לא סביר (10-5000 מ\"ר)",
    .pred (fun _ v => .ok (validate_area v))⟩,
  ⟨"rooms_required", "rooms", "מספר חדרים חסר", .pred presentChk⟩,
  ⟨"rooms_valid", "rooms", "מספר חדרים לא סביר (1-20)",
    .pred (fun _ v => .ok (validate_rooms v))⟩,
  ⟨"property_type_required", "property_type", "סוג נכס לא תקין",
    .pred (fun _ v => .ok (inStrs ["apartment", "penthouse", "garden", "duplex", "house", "land"] v))⟩,
  ⟨"price_required", "price", "מחיר העסקה חסר", .pred presentChk⟩,
  ⟨"price_valid", "price", "מחיר לא סביר (50,000-100,000,000 ₪)",
    .pred (fun _ v => .ok (validate_price v))⟩,
  ⟨"signing_date_required", "signing_date", "תאריך חתימה חסר", .pred requiredChk⟩,
  ⟨"signing_date_valid", "signing_date", "תאריך חתימה לא תקין",
    .pred (fun _ v => .ok (validate_date v))⟩,
  ⟨"delivery_date_required", "delivery_date", "תאריך מסירה חסר", .pred requiredChk⟩,
  ⟨"delivery_date_valid", "delivery_date", "תאריך מסירה לא תקין",
    .pred (fun _ v => .ok (validate_date v))⟩,
  dpRule,
  ⟨"delivery_after_signing", "signing_date", "תאריך מסירה חייב להיות אחרי תאריך חתימה", .cross⟩,
  ⟨"seller_marital_valid", "seller_marital_status", "מצב משפחתי מוכר לא תקין",
    .pred (fun _ v => .ok (!truthy v || inStrs ["single", "married", "divorced", "widowed", ""] v))⟩,
  ⟨"parking_valid", "parking", "סוג חניה לא תקין",
    .pred (fun _ v => .ok (!truthy v || inStrs ["none", "covered", "uncovered", "underground", ""] v))⟩,
  ⟨"storage_valid", "storage", "שדה מחסן לא תקין",
    .pred (fun _ v => .ok (!truthy v || inStrs ["yes", "no", ""] v))⟩,
  ⟨"floor_valid", "floor", "קומה לא סבירה",
    .pred (fun _ v => if !truthy v then .ok true
           else (pyInt v).map (fun n => -5 ≤ n && n ≤ 100))⟩,
  ⟨"price_per_sqm_reasonable", "price", "מחיר למ\"ר לא סביר", .cross⟩,
  fsRule,
  ⟨"notes_length", "notes", "הערות ארוכות מדי (מקסימום 5000 תווים)",
    .pred (fun _ v => .ok (!truthy v || (pyStr v).length ≤ 5000))⟩,
  ⟨"sub_parcel_valid", "sub_parcel", "תת-חלקה לא תקינה",
    .pred (fun _ v => .ok (!truthy v || digitSpan 4 (pyStrip (pyStr v))))⟩,
  ⟨"seller_name_not_buyer_name", "seller_name", "שם המוכר זהה לשם הקונה", .cross⟩]

/-- An error or warning entry of the validation result. -/
structure VEntry where
  rule : String
  field : String
  message : String
deriving DecidableEq, Repr

/-- How one rule is dispatched by run_validation. -/
inductive ROutcome where
  | err (e : VEntry)
  | warn (e : VEntry)
  | pass
deriving DecidableEq, Repr

/-- The boolean condition of the different_parties branch of run_validation:
both IDs present and truthy and equal. -/
def dpCond (data : Dict) : Bool :=
  truthy (dictGetN data "seller_id") && truthy (dictGetN data "buyer_id")
    && pyEq (dictGetN data "seller_id") (dictGetN data "buyer_id")

/-- The per-rule body of the run_validation loop: cross rules are dispatched
by name exactly as in the source, other rules fetch the field (empty-string
default), run the predicate, and convert a raised exception into the rule
error entry. -/
def ruleOutcome (today : Date) (data : Dict) (r : VRule) : ROutcome :=
  match r.check with
  | .cross =>
      if r.name = "different_parties" then
        if dpCond data then
          .err ⟨r.name, r.field, r.msg⟩
        else .pass
      else if r.name = "delivery_after_signing" then
        if truthy (dictGetN data "signing_date") && truthy (dictGetN data "delivery_date")
            && !validate_delivery_after_signing (dictGetN data "signing_date")
                 (dictGetN data "delivery_date") then
          .err ⟨r.name, r.field, r.msg⟩
        else .pass
      else if r.name = "seller_name_not_buyer_name" then
        if truthy (dictGetN data "seller_name") && truthy (dictGetN data "buyer_name")
            && pyEq (dictGetN data "seller_name") (dictGetN data "buyer_name") then
          .warn ⟨r.name, r.field, r.msg⟩
        else .pass
      else if r.name = "price_per_sqm_reasonable" then
        match pyFloat (dictGetD data "price" (.int 0)),
              pyFloat (dictGetD data "area_sqm" (.int 1)) with
        | .ok price, .ok area =>
            if area = 0 then .pass
            else if price / area < 5000 || price / area > 200000 then
              .warn ⟨r.name, r.field, r.msg⟩
            else .pass
        | _, _ => .pass
      else .pass
  | .pred f =>
      match f today (dictGetD data r.field (.str "")) with
      | .ok true => .pass
      | .ok false => .err ⟨r.name, r.field, r.msg⟩
      | .error _ => .err ⟨r.name, r.field, r.msg⟩

/-- The validation result dictionary. -/
structure VResult where
  valid : Bool
  total_rules : Nat
  passed : Nat
  errors : List VEntry
  warnings : List VEntry
deriving DecidableEq, Repr

/-- The error entries accumulated by the run_validation loop, in order. -/
def errEntries (outcomes : List ROutcome) : List VEntry :=
  outcomes.filterMap (fun o => match o with
    | .err e => some e
    | _ => Option.none)

/-- The warning entries accumulated by the run_validation loop, in order. -/
def warnEntries (outcomes : List ROutcome) : List VEntry :=
  outcomes.filterMap (fun o => match o with
    | .warn e => some e
    | _ => Option.none)

/-- The number of rules appended to the passed list. -/
def passCount (outcomes : List ROutcome) : Nat :=
  (outcomes.filterMap (fun o => match o with
    | .pass => some Unit.unit
    | _ => Option.none)).length

/-- run_validation from validator.py: every rule contributes to exactly one
of the error list, the warning list, or the passed count, in registry
order. -/
def run_validation (today : Date) (data : Dict) : VResult :=
  let outcomes := VALIDATION_RULES.map (fun r => ruleOutcome today data r)
  ⟨(errEntries outcomes).isEmpty, VALIDATION_RULES.length, passCount outcomes,
   errEntries outcomes, warnEntries outcomes⟩

/-- True when the predicate of a non-cross rule raises on the value the
runner hands it. -/
def checkRaises (today : Date) (data : Dict) (r : VRule) : Bool :=
  match r.check with
  | .pred f =>
      match f today (dictGetD data r.field (.str "")) with
      | .error _ => true
      | .ok _ => false
  | .cross => false

/-- The error entry produced by the different_parties rule. -/
def dpEntry : VEntry := ⟨dpRule.name, dpRule.field, dpRule.msg⟩

/-- The error entry produced by the future_signing_date rule. -/
def fsEntry : VEntry := ⟨fsRule.name, fsRule.field, fsRule.msg⟩

/-- Whether a rule is one of the specially dispatched cross-field rules. -/
def isCross : VCheck → Bool
  | .cross => true
  | .pred _ => false

/-! ## data_cleaner.py: field cleaners and merge_and_clean -/

/-- clean_phone: falsy input gives the empty string, otherwise drop
whitespace, hyphens, parentheses and plus signs, then replace a leading
972 country code with a leading 0. -/
def clean_phone (phone : PyVal) : String :=
  if !truthy phone then ""
  else
    match (pyStr phone).data.filter
        (fun c => !(isWS c || c = '-' || c = '(' || c = ')' || c = '+')) with
    | '9' :: '7' :: '2' :: rest => ⟨'0' :: rest⟩
    | l => ⟨l⟩

/-- clean_id: falsy input gives the empty string, otherwise strip and
zero-fill to 9 characters. -/
def clean_id (id_num : PyVal) : String :=
  if !truthy id_num then "" else zfill 9 (pyStrip (pyStr id_num))

/-- Python str.split() with no arguments: maximal runs of non-whitespace. -/
def wordsAux : List Char → List Char → List (List Char)
  | [], acc => if acc = [] then [] else [acc.reverse]
  | c :: rest, acc =>
      if isWS c then
        (if acc = [] then wordsAux rest [] else acc.reverse :: wordsAux rest [])
      else wordsAux rest (c :: acc)

def pyWords (s : String) : List String :=
  (wordsAux s.data []).map (fun l => ⟨l⟩)

/-- clean_name: falsy input gives the empty string, otherwise strip, split
on whitespace runs and re-join with single spaces. -/
def clean_name (name : PyVal) : String :=
  if !truthy name then ""
  else String.intercalate " " (pyWords (pyStrip (pyStr name)))

/-- clean_price: falsy input gives 0.0; otherwise keep only digits and dots
and parse as float, yielding 0.0 when nothing is left and raising
ValueError when the residue is not a valid decimal (two dots, or a lone
dot). -/
def clean_price (price : PyVal) : Except Unit ℚ :=
  if !truthy price then .ok 0
  else
    match (pyStr price).data.filter (fun c => c.isDigit || c = '.') with
    | [] => .ok 0
    | cleaned =>
        match decValue cleaned with
        | some q => .ok q
        | Option.none => .error ()

/-- ASCII str.lower(). -/
def asciiLower (s : String) : String :=
  ⟨s.data.map (fun c => if 'A' ≤ c && c ≤ 'Z' then Char.ofNat (c.toNat + 32) else c)⟩

/-- Round half to even (the rounding of Python round). -/
def roundHalfEven (q : ℚ) : Int :=
  if q - q.floor < 1 / 2 then q.floor
  else if 1 / 2 < q - q.floor then q.floor + 1
  else if q.floor % 2 = 0 then q.floor else q.floor + 1

/-- Python round(x, 2). -/
def round2 (q : ℚ) : ℚ :=
  (roundHalfEven (q * 100) : ℚ) / 100

/-- The flat clean record produced by merge_and_clean, with the field types
the cleaners give them (legal-status fields keep whatever value the OCR
mapping holds). -/
structure CleanRecord where
  seller_name : String
  seller_id : String
  seller_address : String
  seller_phone : String
  seller_email : String
  seller_marital_status : String
  buyer_name : String
  buyer_id : String
  buyer_address : String
  buyer_phone : String
  buyer_email : String
  property_address : String
  property_type : String
  parking : String
  storage : String
  notes : String
  block_number : String
  parcel_number : String
  sub_parcel : String
  area_sqm : ℚ
  registered_owner : PyVal
  has_mortgage : PyVal
  has_lien : PyVal
  has_warning_note : PyVal
  rights_type : PyVal
  zoning : PyVal
  has_violations : PyVal
  rooms : ℚ
  floor : Int
  price : ℚ
  signing_date : String
  delivery_date : String
  price_per_sqm : ℚ
  processed_at : String
deriving DecidableEq, Repr

/-- merge_and_clean from data_cleaner.py. The OCR argument models the
optional parameter (default None); a None or empty mapping disables the
OCR branch exactly as Python truthiness does. float()/int() conversion
failures propagate as the error case; the processing timestamp is the
explicit now argument standing for datetime.now().isoformat(). -/
def merge_and_clean (now : String) (client_data : Dict) (ocr_data : Option Dict) :
    Except Unit CleanRecord :=
  let ocr := ocr_data.getD []
  let useOcr := !ocr.isEmpty
  let areaE := if useOcr
    then pyFloat (dictGetD ocr "area_sqm" (dictGetD client_data "area_sqm" (.int 0)))
    else pyFloat (dictGetD client_data "area_sqm" (.int 0))
  let roomsE := pyFloat (dictGetD client_data "rooms" (.int 0))
  let floorE := if truthy (dictGetN client_data "floor")
    then pyInt (dictGetD client_data "floor" (.int 0))
    else .ok 0
  let priceE := clean_price (dictGetD client_data "price" (.int 0))
  match areaE, roomsE, floorE, priceE with
  | .ok area_sqm, .ok rooms, .ok floor, .ok price =>
      .ok {
        seller_name := clean_name (dictGetD client_data "seller_name" (.str "")),
        seller_id := clean_id (dictGetD client_data "seller_id" (.str "")),
        seller_address := pyStrip (pyStr (dictGetD client_data "seller_address" (.str ""))),
        seller_phone := clean_phone (dictGetD client_data "seller_phone" (.str "")),
        seller_email := asciiLower (pyStrip (pyStr (dictGetD client_data "seller_email" (.str "")))),
        seller_marital_status := pyStrip (pyStr (dictGetD client_data "seller_marital_status" (.str ""))),
        buyer_name := clean_name (dictGetD client_data "buyer_name" (.str "")),
        buyer_id := clean_id (dictGetD client_data "buyer_id" (.str "")),
        buyer_address := pyStrip (pyStr (dictGetD client_data "buyer_address" (.str ""))),
        buyer_phone := clean_phone (dictGetD client_data "buyer_phone" (.str "")),
        buyer_email := asciiLower (pyStrip (pyStr (dictGetD client_data "buyer_email" (.str "")))),
        property_address := pyStrip (pyStr (dictGetD client_data "property_address" (.str ""))),
        property_type := pyStrip (pyStr (dictGetD client_data "property_type" (.str ""))),
        parking := pyStrip (pyStr (dictGetD client_data "parking" (.str "none"))),
        storage := pyStrip (pyStr (dictGetD client_data "storage" (.str "no"))),
        notes := pyStrip (pyStr (dictGetD client_data "notes" (.str ""))),
        block_number := if useOcr
          then pyStrip (pyStr (dictGetD ocr "block_number" (dictGetD client_data "block_number" (.str ""))))
          else pyStrip (pyStr (dictGetD client_data "block_number" (.str ""))),
        parcel_number := if useOcr
          then pyStrip (pyStr (dictGetD ocr "parcel_number" (dictGetD client_data "parcel_number" (.str ""))))
          else pyStrip (pyStr (dictGetD client_data "parcel_number" (.str ""))),
        sub_parcel := if useOcr
          then pyStrip (pyStr (dictGetD ocr "sub_parcel" (dictGetD client_data "sub_parcel" (.str ""))))
          else pyStrip (pyStr (dictGetD client_data "sub_parcel" (.str ""))),
        area_sqm := area_sqm,
        registered_owner := if useOcr then dictGetD ocr "registered_owner" (.str "") else .str "",
        has_mortgage := if useOcr then dictGetD ocr "has_mortgage" (.bool false) else .bool false,
        has_lien := if useOcr then dictGetD ocr "has_lien" (.bool false) else .bool false,
        has_warning_note := if useOcr then dictGetD ocr "has_warning_note" (.bool false) else .bool false,
        rights_type := if useOcr then dictGetD ocr "rights_type" (.str "") else .str "",
        zoning := if useOcr then dictGetD ocr "zoning" (.str "") else .str "",
        has_violations := if useOcr then dictGetD ocr "has_violations" (.bool false) else .bool false,
        rooms := rooms,
        floor := floor,
        price := price,
        signing_date := pyStrip (pyStr (dictGetD client_data "signing_date" (.str ""))),
        delivery_date := pyStrip (pyStr (dictGetD client_data "delivery_date" (.str ""))),
        price_per_sqm := if 0 < area_sqm then round2 (price / area_sqm) else 0,
        processed_at := now }
  | _, _, _, _ => .error ()

deriving instance DecidableEq for Except

/-- Erase the processing timestamp, for comparing two merge results. -/
def scrubTime : Except Unit CleanRecord → Except Unit CleanRecord
  | .ok rec => .ok { rec with processed_at := "" }
  | .error e => .error e

/-! ## legal_compliance.py -/

/-- One entry of the compliance checklist. Over the clean record the
predicates are total: truthiness of the string/numeric/flag fields as in
the source lambdas. -/
structure CCheck where
  id : String
  law_ref : String
  description : String
  check : CleanRecord → Bool
  severity : String

def COMPLIANCE_CHECKS : List CCheck := [
  ⟨"seller_identity", "חוק מכר דירות §2", "זיהוי מלא של המוכר",
    fun d => d.seller_name ≠ "" && d.seller_id ≠ "", "critical"⟩,
  ⟨"buyer_identity", "חוק מכר דירות §2", "זיהוי מלא של הקונה",
    fun d => d.buyer_name ≠ "" && d.buyer_id ≠ "", "critical"⟩,
  ⟨"property_identification", "חוק מכר דירות §2", "זיהוי הנכס - גוש, חלקה, כתובת",
    fun d => d.block_number ≠ "" && d.parcel_number ≠ "" && d.property_address ≠ "", "critical"⟩,
  ⟨"price_stated", "חוק מכר דירות §2", "ציון מחיר העסקה",
    fun d => d.price ≠ 0 && 0 < d.price, "critical"⟩,
  ⟨"delivery_date", "חוק מכר דירות §5א", "קביעת מועד מסירת הדירה",
    fun d => d.delivery_date ≠ "", "critical"⟩,
  ⟨"area_specified", "חוק מכר דירות §3", "ציון שטח הדירה",
    fun d => d.area_sqm ≠ 0 && 0 < d.area_sqm, "critical"⟩,
  ⟨"rooms_specified", "חוק מכר דירות §3", "ציון מספר חדרים",
    fun d => d.rooms ≠ 0 && 0 < d.rooms, "high"⟩,
  ⟨"no_lien", "חוק המקרקעין §127", "הנכס נקי מעיקולים",
    fun d => !truthy d.has_lien, "critical"⟩,
  ⟨"no_violations", "חוק התכנון והבנייה §145", "אין חריגות בנייה",
    fun d => !truthy d.has_violations, "high"⟩,
  ⟨"breach_clause", "חוק החוזים (תרופות) §15", "סעיף פיצוי מוסכם בגין הפרה",
    fun _ => true, "high"⟩,
  ⟨"tax_clause", "חוק מיסוי מקרקעין §15", "סעיף מיסים - מס שבח, מס רכישה, היטל השבחה",
    fun _ => true, "high"⟩,
  ⟨"mortgage_disclosure", "חוק מכר דירות §4א", "גילוי משכנתא קיימת",
    fun _ => true, "high"⟩,
  ⟨"signing_date", "חוק החוזים §1", "ציון תאריך חתימה",
    fun d => d.signing_date ≠ "", "critical"⟩,
  ⟨"jurisdiction_clause", "חוק בתי המשפט §51", "סעיף סמכות שיפוט",
    fun _ => true, "medium"⟩,
  ⟨"seller_contact", "תקנות הגנת הצרכן §4", "פרטי התקשרות מוכר",
    fun d => d.seller_phone ≠ "" && d.seller_email ≠ "", "medium"⟩,
  ⟨"buyer_contact", "תקנות הגנת הצרכן §4", "פרטי התקשרות קונה",
    fun d => d.buyer_phone ≠ "" && d.buyer_email ≠ "", "medium"⟩,
  ⟨"payment_schedule", "חוק מכר דירות §2", "לוח תשלומים מפורט",
    fun _ => true, "high"⟩,
  ⟨"delivery_condition", "חוק מכר דירות §5ב", "תנאי מסירת הדירה (AS IS / לאחר תיקונים)",
    fun _ => true, "medium"⟩]

/-- An evaluated checklist entry of the compliance result. -/
structure CEntry where
  id : String
  law_ref : String
  description : String
  severity : String
  passed : Bool
deriving DecidableEq, Repr

structure ComplianceResult where
  compliant : Bool
  total_checks : Nat
  passed : Nat
  failed : Nat
  critical_failures : List CEntry
  high_failures : List CEntry
  details : List CEntry
  timestamp : String
deriving DecidableEq, Repr

/-- run_compliance_check from legal_compliance.py (the timestamp field is
the explicit now argument standing for datetime.now().isoformat()). -/
def run_compliance_check (now : String) (data : CleanRecord) : ComplianceResult :=
  let results := COMPLIANCE_CHECKS.map
    (fun c => CEntry.mk c.id c.law_ref c.description c.severity (c.check data))
  let passed_count := (results.filter (fun r => r.passed)).length
  let critical_failures := results.filter (fun r => !r.passed && r.severity = "critical")
  let high_failures := results.filter (fun r => !r.passed && r.severity = "high")
  ⟨critical_failures.isEmpty, results.length, passed_count,
   results.length - passed_count, critical_failures, high_failures, results, now⟩

/-! ## quality_scorer.py -/

/-- Which deduction a line item records (the Hebrew explanation strings of
the source are abstracted to the deduction kind plus amount). -/
inductive DKind where
  | missing | critical | high | mortgage | lien | violations | warning | price
deriving DecidableEq, Repr

structure QualityResult where
  score : Int
  grade : String
  recommendation : String
  deductions : List (DKind × Int)
deriving DecidableEq, Repr

/-- Truthiness of the 19 required completeness fields of the clean record
(strings are falsy when empty, numbers when zero). -/
def missingFlags (d : CleanRecord) : List Bool :=
  [d.seller_name = "", d.seller_id = "", d.seller_address = "", d.seller_phone = "",
   d.seller_email = "", d.buyer_name = "", d.buyer_id = "", d.buyer_address = "",
   d.buyer_phone = "", d.buyer_email = "", d.property_address = "", d.block_number = "",
   d.parcel_number = "", d.area_sqm = 0, d.rooms = 0, d.property_type = "",
   d.price = 0, d.signing_date = "", d.delivery_date = ""]

def missingCount (d : CleanRecord) : Nat :=
  ((missingFlags d).filter (fun b => b)).length

/-- calculate_quality_score from quality_scorer.py. Over the typed clean
record the float conversions cannot raise, so the silent except branch of
the price-sanity step is vacuous. -/
def calculate_quality_score (data : CleanRecord) (compliance : ComplianceResult) :
    QualityResult :=
  let missing := missingCount data
  let critical_count := compliance.critical_failures.length
  let high_count := compliance.high_failures.length
  let dMiss : Int := if missing ≠ 0 then min (missing * 3 : Int) 30 else 0
  let dCrit : Int := if critical_count ≠ 0 then min (critical_count * 10 : Int) 30 else 0
  let dHigh : Int := if high_count ≠ 0 then min (high_count * 5 : Int) 10 else 0
  let dMort : Int := if truthy data.has_mortgage then 5 else 0
  let dLien : Int := if truthy data.has_lien then 10 else 0
  let dViol : Int := if truthy data.has_violations then 5 else 0
  let dWarn : Int := if truthy data.has_warning_note then 3 else 0
  let ppsm : ℚ := data.price / max data.area_sqm 1
  let dPrice : Int := if ppsm < 5000 ∨ 200000 < ppsm then 10 else 0
  let score : Int :=
    max 0 (min 100 (100 - dMiss - dCrit - dHigh - dMort - dLien - dViol - dWarn - dPrice))
  let deductions : List (DKind × Int) :=
    (if missing ≠ 0 then [(DKind.missing, dMiss)] else [])
      ++ (if critical_count ≠ 0 then [(DKind.critical, dCrit)] else [])
      ++ (if high_count ≠ 0 then [(DKind.high, dHigh)] else [])
      ++ (if truthy data.has_mortgage then [(DKind.mortgage, dMort)] else [])
      ++ (if truthy data.has_lien then [(DKind.lien, dLien)] else [])
      ++ (if truthy data.has_violations then [(DKind.violations, dViol)] else [])
      ++ (if truthy data.has_warning_note then [(DKind.warning, dWarn)] else [])
      ++ (if ppsm < 5000 ∨ 200000 < ppsm then [(DKind.price, dPrice)] else [])
  let gr : String × String :=
    if 80 ≤ score then ("מצוין", "החוזה מוכן לחתימה")
    else if 60 ≤ score then ("טוב", "נדרשים תיקונים קלים לפני חתימה")
    else if 40 ≤ score then ("בינוני", "נדרשת בדיקה מעמיקה ותיקונים משמעותיים")
    else ("חלש", "החוזה אינו מוכן לחתימה - נדרשת עבודה מחודשת")
  ⟨score, gr.1, gr.2, deductions⟩

/-- A clean record hitting every deduction: all required fields missing,
every risk flag set, price per area out of range. -/
def zeroRecord : CleanRecord :=
  ⟨"", "", "", "", "", "", "", "", "", "", "", "", "", "", "", "", "", "", "",
   0, .str "", .bool true, .bool true, .bool true, .str "", .str "", .bool true,
   0, 0, 0, "", "", 0, ""⟩

/-- A compliance result with three critical and two high failures, enough
to cap both compliance deductions. -/
def fullFailCompliance : ComplianceResult :=
  ⟨false, 18, 13, 5,
   [⟨"a", "", "", "critical", false⟩, ⟨"b", "", "", "critical", false⟩,
    ⟨"c", "", "", "critical", false⟩],
   [⟨"d", "", "", "high", false⟩, ⟨"e", "", "", "high", false⟩],
   [], ""⟩

/-! ## data_adapter.py -/

/-- A party record of the nested submission format. -/
structure Party where
  name : String
  id : String
  address : String
  phone : String
  email : String
  marital_status : String
deriving DecidableEq, Repr

def emptyParty : Party := ⟨"", "", "", "", "", ""⟩

/-- The property sub-mapping of a nested submission (fields hold arbitrary
scalar values; normalize stringifies them). -/
structure NProperty where
  address : String
  block_number : PyVal
  parcel_number : PyVal
  sub_parcel : PyVal
  area_sqm : PyVal
  rooms : PyVal
  floor : PyVal
  property_type : String
  parking : String
  storage : String
deriving DecidableEq, Repr

structure NTransaction where
  price : PyVal
  signing_date : String
  delivery_date : String
deriving DecidableEq, Repr

/-- A nested submission record (the already-flat pass-through branch of
normalize_transaction does not arise for this shape). -/
structure NestedRec where
  sellers : List Party
  buyers : List Party
  property : NProperty
  transaction : NTransaction
  seller_notes : String
deriving DecidableEq, Repr

/-- The flat record produced by normalize_transaction: primary-party fields
(empty-string defaults when the party list is empty), stringified property
and transaction fields, and the retained full party lists (an Option models
dict-key presence for the all_sellers/all_buyers round-trip keys). -/
structure FlatRec where
  seller_name : String
  seller_id : String
  seller_address : String
  seller_phone : String
  seller_email : String
  seller_marital_status : String
  buyer_name : String
  buyer_id : String
  buyer_address : String
  buyer_phone : String
  buyer_email : String
  buyer_marital_status : String
  property_address : String
  block_number : String
  parcel_number : String
  sub_parcel : String
  area_sqm : String
  rooms : String
  floor : String
  property_type : String
  parking : String
  storage : String
  price : String
  signing_date : String
  delivery_date : String
  notes : String
  all_sellers : Option (List Party)
  all_buyers : Option (List Party)
deriving DecidableEq, Repr

/-- normalize_transaction from data_adapter.py (nested branch). -/
def normalize_transaction (data : NestedRec) : FlatRec :=
  let ps := data.sellers.head?.getD emptyParty
  let pb := data.buyers.head?.getD emptyParty
  { seller_name := ps.name,
    seller_id := ps.id,
    seller_address := ps.address,
    seller_phone := ps.phone,
    seller_email := ps.email,
    seller_marital_status := ps.marital_status,
    buyer_name := pb.name,
    buyer_id := pb.id,
    buyer_address := pb.address,
    buyer_phone := pb.phone,
    buyer_email := pb.email,
    buyer_marital_status := pb.marital_status,
    property_address := data.property.address,
    block_number := pyStr data.property.block_number,
    parcel_number := pyStr data.property.parcel_number,
    sub_parcel := pyStr data.property.sub_parcel,
    area_sqm := pyStr data.property.area_sqm,
    rooms := pyStr data.property.rooms,
    floor := pyStr data.property.floor,
    property_type := data.property.property_type,
    parking := data.property.parking,
    storage := data.property.storage,
    price := pyStr data.transaction.price,
    signing_date := data.transaction.signing_date,
    delivery_date := data.transaction.delivery_date,
    notes := data.seller_notes,
    all_sellers := some data.sellers,
    all_buyers := some data.buyers }

/-- The _to_num helper on the flat string fields: float() with a 0.0
fallback. -/
def toNumS (s : String) : ℚ :=
  (floatOfString s).getD 0

/-- Python int() truncation toward zero of a float. -/
def ratTrunc (q : ℚ) : Int :=
  if 0 ≤ q then q.floor else -((-q).floor)

/-- The nested record rebuilt by denormalize_transaction, with the numeric
types int()/_to_num give the fields. -/
structure DProperty where
  address : String
  block_number : String
  parcel_number : String
  sub_parcel : String
  area_sqm : ℚ
  rooms : ℚ
  floor : Int
  property_type : String
  parking : String
  storage : String
deriving DecidableEq, Repr

structure DTransaction where
  price : Int
  signing_date : String
  delivery_date : String
deriving DecidableEq, Repr

structure DenormRec where
  sellers : List Party
  buyers : List Party
  property : DProperty
  transaction : DTransaction
  seller_notes : String
deriving DecidableEq, Repr

/-- denormalize_transaction from data_adapter.py. -/
def denormalize_transaction (flat : FlatRec) : DenormRec :=
  { sellers := flat.all_sellers.getD
      [⟨flat.seller_name, flat.seller_id, flat.seller_address, flat.seller_phone,
        flat.seller_email, flat.seller_marital_status⟩],
    buyers := flat.all_buyers.getD
      [⟨flat.buyer_name, flat.buyer_id, flat.buyer_address, flat.buyer_phone,
        flat.buyer_email, flat.buyer_marital_status⟩],
    property := ⟨flat.property_address, flat.block_number, flat.parcel_number,
      flat.sub_parcel, toNumS flat.area_sqm, toNumS flat.rooms,
      ratTrunc (toNumS flat.floor), flat.property_type, flat.parking, flat.storage⟩,
    transaction := ⟨ratTrunc (toNumS flat.price), flat.signing_date, flat.delivery_date⟩,
    seller_notes := flat.notes }

end RealEstate

/-- C1: validate_israeli_id returns true iff the stripped input is non-empty
and all digits, its zero-padding to 9 characters has length exactly 9, and
the weighted digit sum is divisible by 10; in particular it accepts
"123456782" and rejects "123456789". -/
theorem C1_validate_israeli_id :
    (∀ s : String,
      RealEstate.validate_israeli_id s = true ↔
        (RealEstate.pyStrip s ≠ "" ∧
         (RealEstate.pyStrip s).data.all Char.isDigit = true ∧
         (RealEstate.zfill 9 (RealEstate.pyStrip s)).length = 9 ∧
         RealEstate.idSum (RealEstate.zfill 9 (RealEstate.pyStrip s)).data % 10 = 0))
    ∧ RealEstate.validate_israeli_id "123456782" = true
    ∧ RealEstate.validate_israeli_id "123456789" = false := by
  refine ⟨fun s => ?_, by decide, by decide⟩
  simp only [RealEstate.validate_israeli_id]
  split
  · rename_i h
    simp only [Bool.or_eq_true, decide_eq_true_eq, Bool.not_eq_true'] at h
    constructor
    · intro hh; exact Bool.noConfusion hh
    · rintro ⟨h1, h2, h3, h4⟩
      rcases h with h | h
      · exact absurd h h1
      · rw [h] at h2; cases h2
  · rename_i h
    rw [Bool.or_eq_true] at h
    push_neg at h
    obtain ⟨h1, h2⟩ := h
    replace h1 : RealEstate.pyStrip s ≠ "" := by
      intro he; exact h1 (by simpa using he)
    replace h2 : (RealEstate.pyStrip s).data.all Char.isDigit = true := by
      cases hb : (RealEstate.pyStrip s).data.all Char.isDigit
      · exact absurd (by rw [hb]; rfl) h2
      · rfl
    split
    · rename_i hlen
      constructor
      · intro hh; exact Bool.noConfusion hh
      · rintro ⟨_, _, h3, _⟩
        exact absurd h3 hlen
    · rename_i hlen
      rw [not_not] at hlen
      simp only [beq_iff_eq]
      exact ⟨fun h4 => ⟨h1, h2, hlen, h4⟩, fun h4 => h4.2.2.2⟩

open RealEstate

/-- Each outcome of the run_validation loop lands in exactly one of the
error list, the warning list and the passed list. -/
theorem length_partition (l : List ROutcome) :
    (errEntries l).length + (warnEntries l).length + passCount l = l.length := by
  induction l with
  | nil => rfl
  | cons h t ih =>
      cases h <;>
        simp only [errEntries, warnEntries, passCount, List.filterMap_cons,
          List.length_cons] at ih ⊢ <;>
        omega

/-- A raising predicate turns into the rule's own error outcome. -/
theorem ruleOutcome_of_raises (today : Date) (data : Dict) (r : VRule)
    (h : checkRaises today data r = true) :
    ruleOutcome today data r = .err ⟨r.name, r.field, r.msg⟩ := by
  unfold checkRaises at h
  unfold ruleOutcome
  cases hc : r.check with
  | cross =>
      rw [hc] at h
      exact Bool.noConfusion h
  | pred f =>
      rw [hc] at h
      dsimp only at h ⊢
      cases hv : f today (dictGetD data r.field (.str "")) with
      | ok b => rw [hv] at h; exact Bool.noConfusion h
      | error u => rfl

/-- An error outcome always carries the entry built from the rule itself. -/
theorem ruleOutcome_err_shape (today : Date) (data : Dict) (r : VRule) (e : VEntry)
    (h : ruleOutcome today data r = .err e) : e = ⟨r.name, r.field, r.msg⟩ := by
  unfold ruleOutcome at h
  cases hc : r.check with
  | pred f =>
      rw [hc] at h
      dsimp only at h
      split at h <;> simp_all
  | cross =>
      rw [hc] at h
      dsimp only at h
      split_ifs at h <;>
        (try split at h) <;> (try split_ifs at h) <;> simp_all

/-- A warning outcome carries the rule's own entry, and only the
same-name rule and the price-per-area rule can produce one. -/
theorem ruleOutcome_warn_shape (today : Date) (data : Dict) (r : VRule) (e : VEntry)
    (h : ruleOutcome today data r = .warn e) :
    e = ⟨r.name, r.field, r.msg⟩
      ∧ (r.name = "seller_name_not_buyer_name" ∨ r.name = "price_per_sqm_reasonable") := by
  unfold ruleOutcome at h
  cases hc : r.check with
  | pred f =>
      rw [hc] at h
      dsimp only at h
      split at h <;> simp_all
  | cross =>
      rw [hc] at h
      dsimp only at h
      split_ifs at h <;>
        (try split at h) <;> (try split_ifs at h) <;> simp_all

/-- A rule whose outcome is an error contributes its entry to the error
list of the validation result. -/
theorem mem_errors_of_outcome (today : Date) (data : Dict) {r : VRule}
    (hr : r ∈ VALIDATION_RULES)
    (h : ruleOutcome today data r = .err ⟨r.name, r.field, r.msg⟩) :
    (⟨r.name, r.field, r.msg⟩ : VEntry) ∈ (run_validation today data).errors := by
  simp only [run_validation, errEntries, List.mem_filterMap]
  refine ⟨.err ⟨r.name, r.field, r.msg⟩, ?_, rfl⟩
  exact List.mem_map.mpr ⟨r, hr, h⟩

/-- Every entry of the error list is produced by some rule of the registry. -/
theorem exists_rule_of_mem_errors (today : Date) (data : Dict) {e : VEntry}
    (h : e ∈ (run_validation today data).errors) :
    ∃ r ∈ VALIDATION_RULES, ruleOutcome today data r = .err e := by
  simp only [run_validation, errEntries, List.mem_filterMap, List.mem_map] at h
  obtain ⟨o, ⟨r, hr, ho⟩, hmatch⟩ := h
  cases o <;> simp_all
  exact ⟨r, hr, ho⟩

/-- Every entry of the warning list is produced by some rule of the registry. -/
theorem exists_rule_of_mem_warnings (today : Date) (data : Dict) {e : VEntry}
    (h : e ∈ (run_validation today data).warnings) :
    ∃ r ∈ VALIDATION_RULES, ruleOutcome today data r = .warn e := by
  simp only [run_validation, warnEntries, List.mem_filterMap, List.mem_map] at h
  obtain ⟨o, ⟨r, hr, ho⟩, hmatch⟩ := h
  cases o <;> simp_all
  exact ⟨r, hr, ho⟩

/-- A non-empty error list makes the result invalid. -/
theorem valid_false_of_mem_errors (today : Date) (data : Dict) {e : VEntry}
    (h : e ∈ (run_validation today data).errors) :
    (run_validation today data).valid = false := by
  simp only [run_validation] at h ⊢
  cases hl : errEntries (VALIDATION_RULES.map (fun r => ruleOutcome today data r)) with
  | nil => rw [hl] at h; cases h
  | cons a t => rfl

/-- The different_parties rule is in the registry (position 39). -/
theorem dpRule_mem : dpRule ∈ VALIDATION_RULES := by
  have h : VALIDATION_RULES.get ⟨39, by decide⟩ = dpRule := rfl
  rw [← h]
  exact List.get_mem _ _ _

/-- The future_signing_date rule is in the registry (position 46). -/
theorem fsRule_mem : fsRule ∈ VALIDATION_RULES := by
  have h : VALIDATION_RULES.get ⟨46, by decide⟩ = fsRule := rfl
  rw [← h]
  exact List.get_mem _ _ _

/-- The only registry rule named different_parties is the cross rule on the
seller_id field with the fixed message. -/
theorem dp_registry :
    ∀ r ∈ VALIDATION_RULES, r.name = "different_parties" →
      r.field = dpRule.field ∧ r.msg = dpRule.msg ∧ isCross r.check = true := by
  decide

/-- The different_parties rule errs exactly when its condition holds. -/
theorem ruleOutcome_dp (today : Date) (data : Dict) :
    ruleOutcome today data dpRule = if dpCond data then .err dpEntry else .pass := by
  rfl

/-- Any error entry named different_parties implies the condition held. -/
theorem dp_err_requires_cond (today : Date) (data : Dict) (r : VRule) (e : VEntry)
    (hr : r ∈ VALIDATION_RULES) (h : ruleOutcome today data r = .err e)
    (hn : e.rule = "different_parties") : dpCond data = true := by
  have hshape := ruleOutcome_err_shape today data r e h
  have hname : r.name = "different_parties" := by rw [hshape] at hn; exact hn
  obtain ⟨hf, hm, hcross⟩ := dp_registry r hr hname
  have hcheck : r.check = .cross := by
    cases hc : r.check with
    | cross => rfl
    | pred f => rw [hc] at hcross; exact Bool.noConfusion hcross
  unfold ruleOutcome at h
  rw [hcheck] at h
  simp only [hname, if_true, if_pos] at h
  by_cases hd : dpCond data
  · exact hd
  · rw [if_neg hd] at h; exact ROutcome.noConfusion h

/-- C3: run_validation never raises: every rule of the registry lands in
exactly one of the error list, the warning list and the passed count, and a
rule whose predicate raises on the value it is handed contributes that
rule's own entry to the error list while all other rules are still
evaluated. -/
theorem C3_run_validation_defensive (today : Date) (data : Dict) :
    (run_validation today data).errors.length + (run_validation today data).warnings.length
        + (run_validation today data).passed = (run_validation today data).total_rules
    ∧ (run_validation today data).total_rules = VALIDATION_RULES.length
    ∧ (∀ r ∈ VALIDATION_RULES, checkRaises today data r = true →
        (⟨r.name, r.field, r.msg⟩ : VEntry) ∈ (run_validation today data).errors) := by
  refine ⟨?_, rfl, ?_⟩
  · have hp := length_partition (VALIDATION_RULES.map (fun r => ruleOutcome today data r))
    rw [List.length_map] at hp
    simpa [run_validation] using hp
  · intro r hr hraise
    exact mem_errors_of_outcome today data hr (ruleOutcome_of_raises today data r hraise)

/-- Witness for C3: with an integer seller_id value the seller_id_valid
predicate raises (str.strip on a non-string), and the rule surfaces as its
own error entry. -/
theorem C3_witness :
    checkRaises ⟨2026, 10, 12⟩ [("seller_id", PyVal.int 5)]
        (VALIDATION_RULES.get ⟨4, by decide⟩) = true
    ∧ (⟨"seller_id_valid", "seller_id", "תעודת זהות מוכר לא תקינה"⟩ : VEntry)
        ∈ (run_validation ⟨2026, 10, 12⟩ [("seller_id", PyVal.int 5)]).errors := by
  constructor
  · rfl
  · exact (C3_run_validation_defensive ⟨2026, 10, 12⟩ [("seller_id", PyVal.int 5)]).2.2
      (VALIDATION_RULES.get ⟨4, by decide⟩) (List.get_mem _ _ _) rfl

/-- C7: when seller_id and buyer_id are both present, truthy and equal,
run_validation reports different_parties in the error list, never in the
warning list, and the result is invalid; otherwise the rule passes and no
different_parties error entry exists. -/
theorem C7_different_parties (today : Date) (data : Dict) :
    (dpCond data = true →
      dpEntry ∈ (run_validation today data).errors
      ∧ (∀ w ∈ (run_validation today data).warnings, w.rule ≠ "different_parties")
      ∧ (run_validation today data).valid = false)
    ∧ (dpCond data = false →
      ruleOutcome today data dpRule = ROutcome.pass
      ∧ (∀ e ∈ (run_validation today data).errors, e.rule ≠ "different_parties")) := by
  constructor
  · intro hd
    have hout : ruleOutcome today data dpRule = .err dpEntry := by
      rw [ruleOutcome_dp, hd]
      rfl
    have hmem : dpEntry ∈ (run_validation today data).errors :=
      mem_errors_of_outcome today data dpRule_mem hout
    refine ⟨hmem, ?_, valid_false_of_mem_errors today data hmem⟩
    intro w hw
    obtain ⟨r, hr, ho⟩ := exists_rule_of_mem_warnings today data hw
    obtain ⟨hshape, hname⟩ := ruleOutcome_warn_shape today data r w ho
    rw [hshape]
    rcases hname with h | h
    · rw [h]
      intro hcontra
      have hlit : "seller_name_not_buyer_name" = "different_parties" := hcontra
      exact absurd hlit (by decide)
    · rw [h]
      intro hcontra
      have hlit : "price_per_sqm_reasonable" = "different_parties" := hcontra
      exact absurd hlit (by decide)
  · intro hd
    constructor
    · rw [ruleOutcome_dp, hd]
      rfl
    · intro e he hn
      obtain ⟨r, hr, ho⟩ := exists_rule_of_mem_errors today data he
      have hc := dp_err_requires_cond today data r e hr ho hn
      rw [hd] at hc
      exact Bool.noConfusion hc

/-- Witness for C7: equal ID "123456782" on both sides triggers the
different_parties error and invalidates the result. -/
theorem C7_witness :
    dpEntry ∈ (run_validation ⟨2026, 10, 12⟩
        [("seller_id", PyVal.str "123456782"), ("buyer_id", PyVal.str "123456782")]).errors
    ∧ (run_validation ⟨2026, 10, 12⟩
        [("seller_id", PyVal.str "123456782"), ("buyer_id", PyVal.str "123456782")]).valid
        = false := by
  have h := (C7_different_parties ⟨2026, 10, 12⟩
      [("seller_id", PyVal.str "123456782"), ("buyer_id", PyVal.str "123456782")]).1 (by decide)
  exact ⟨h.1, h.2.2⟩

/-- C10: run_validation's outcome depends on the current date: any record
whose signing_date is truthy and parses to a date strictly before today
gets a future_signing_date error entry, making the result invalid, whatever
the rest of the record contains. -/
theorem C10_future_signing_date (today : Date) (data : Dict) (dt : Date)
    (h1 : truthy (dictGetD data "signing_date" (.str "")) = true)
    (h2 : parseDate (pyStr (dictGetD data "signing_date" (.str ""))) = some dt)
    (h3 : dateLe today dt = false) :
    fsEntry ∈ (run_validation today data).errors
    ∧ (run_validation today data).valid = false := by
  have hout : ruleOutcome today data fsRule = .err fsEntry := by
    simp [ruleOutcome, fsRule, fsCheck, fsEntry, h1, h2, h3]
  have hmem : fsEntry ∈ (run_validation today data).errors :=
    mem_errors_of_outcome today data fsRule_mem hout
  exact ⟨hmem, valid_false_of_mem_errors today data hmem⟩

/-- Witness for C10: a 2020 signing date is rejected against a later
today. -/
theorem C10_witness :
    fsEntry ∈ (run_validation ⟨2026, 10, 12⟩
        [("signing_date", PyVal.str "2020-01-01")]).errors
    ∧ (run_validation ⟨2026, 10, 12⟩
        [("signing_date", PyVal.str "2020-01-01")]).valid = false :=
  C10_future_signing_date ⟨2026, 10, 12⟩ [("signing_date", PyVal.str "2020-01-01")]
    ⟨2020, 1, 1⟩ (by decide) (by decide) (by decide)

/-- A list with a member is not empty. -/
theorem isEmpty_false_of_mem {α : Type} {l : List α} {a : α} (h : a ∈ l) :
    l.isEmpty = false := by
  cases l with
  | nil => cases h
  | cons x t => rfl

/-- Counterexample to C2: merge_and_clean raises on a price string whose
digit-and-dot residue has two dots, and on a non-numeric area string,
instead of degrading to 0. -/
theorem C2_counterexample :
    merge_and_clean "now" [("price", PyVal.str "1.2.3")] Option.none = .error ()
    ∧ merge_and_clean "now" [("area_sqm", PyVal.str "abc")] Option.none = .error ()
    ∧ clean_price (PyVal.str "1.2.3") = .error () := by
  refine ⟨?_, ?_, ?_⟩ <;> decide

/-- C2 amended: clean_price degrades a falsy price, or a price whose
digit-and-dot residue is empty, to 0.0, and parses any residue that is a
valid decimal, and a well-formed (or degraded) price never makes
merge_and_clean raise; but a residue that is an invalid decimal raises,
as do malformed area_sqm, rooms and floor strings (see the
counterexample). -/
theorem C2_price_only_degrades (p : PyVal) :
    (truthy p = false → clean_price p = .ok 0)
    ∧ ((pyStr p).data.filter (fun c => c.isDigit || c = '.') = [] → clean_price p = .ok 0)
    ∧ (∀ q : ℚ, decValue ((pyStr p).data.filter (fun c => c.isDigit || c = '.')) = some q →
        truthy p = true → clean_price p = .ok q)
    ∧ (∀ q : ℚ, clean_price p = .ok q →
        ∃ rec : CleanRecord,
          merge_and_clean "now" [("price", p)] Option.none = .ok rec ∧ rec.price = q) := by
  refine ⟨?_, ?_, ?_, ?_⟩
  · intro h
    simp [clean_price, h]
  · intro h
    by_cases ht : truthy p
    · simp [clean_price, ht, h]
    · simp [clean_price, ht]
  · intro q hq ht
    cases hf : (pyStr p).data.filter (fun c => c.isDigit || c = '.') with
    | nil =>
        rw [hf] at hq
        rw [show decValue [] = Option.none from rfl] at hq
        exact Option.noConfusion hq
    | cons a l =>
        rw [hf] at hq
        simp [clean_price, ht, hf, hq]
  · intro q hq
    have h1 : pyFloat (dictGetD [("price", p)] "area_sqm" (PyVal.int 0)) = Except.ok 0 := rfl
    have h2 : pyFloat (dictGetD [("price", p)] "rooms" (PyVal.int 0)) = Except.ok 0 := rfl
    have h3 : truthy (dictGetN [("price", p)] "floor") = false := rfl
    have h4 : dictGetD [("price", p)] "price" (PyVal.int 0) = p := rfl
    simp only [merge_and_clean, Option.getD_none, List.isEmpty_nil, Bool.not_true,
      Bool.false_eq_true, if_false, h1, h2, h3, h4, hq]
    exact ⟨_, rfl, rfl⟩

/-- Counterexample to C9: two invocations of merge_and_clean with equal
inputs but different clock readings return different records (the
processed_at field). -/
theorem C9_counterexample :
    merge_and_clean "2024-01-01T00:00:00" [] Option.none
      ≠ merge_and_clean "2024-01-01T00:00:01" [] Option.none := by
  decide

/-- C9 amended: merge_and_clean is deterministic and side-effect-free in
its two data inputs up to the processed_at timestamp: two invocations at
any two clock readings agree on every other field (and on whether they
raise). -/
theorem C9_deterministic_up_to_timestamp (t1 t2 : String) (client : Dict)
    (ocr : Option Dict) :
    scrubTime (merge_and_clean t1 client ocr) = scrubTime (merge_and_clean t2 client ocr) := by
  simp only [merge_and_clean]
  split <;> rfl

/-- C4: with a non-empty OCR mapping the land-registry fields and the
legal-status fields come from the OCR mapping when the key is present
there (dict.get falls back to the client value, or to the false/empty
default for fields with no client equivalent); with no OCR mapping they
come from the client record or the defaults. -/
theorem C4_ocr_precedence (now : String) (client ocr : Dict) (rec : CleanRecord) :
    (ocr ≠ [] → merge_and_clean now client (some ocr) = .ok rec →
      rec.block_number
          = pyStrip (pyStr (dictGetD ocr "block_number" (dictGetD client "block_number" (.str ""))))
      ∧ rec.parcel_number
          = pyStrip (pyStr (dictGetD ocr "parcel_number" (dictGetD client "parcel_number" (.str ""))))
      ∧ rec.sub_parcel
          = pyStrip (pyStr (dictGetD ocr "sub_parcel" (dictGetD client "sub_parcel" (.str ""))))
      ∧ pyFloat (dictGetD ocr "area_sqm" (dictGetD client "area_sqm" (.int 0))) = .ok rec.area_sqm
      ∧ rec.registered_owner = dictGetD ocr "registered_owner" (.str "")
      ∧ rec.has_mortgage = dictGetD ocr "has_mortgage" (.bool false)
      ∧ rec.has_lien = dictGetD ocr "has_lien" (.bool false)
      ∧ rec.has_warning_note = dictGetD ocr "has_warning_note" (.bool false)
      ∧ rec.rights_type = dictGetD ocr "rights_type" (.str "")
      ∧ rec.zoning = dictGetD ocr "zoning" (.str "")
      ∧ rec.has_violations = dictGetD ocr "has_violations" (.bool false))
    ∧ (merge_and_clean now client Option.none = .ok rec →
      rec.block_number = pyStrip (pyStr (dictGetD client "block_number" (.str "")))
      ∧ rec.parcel_number = pyStrip (pyStr (dictGetD client "parcel_number" (.str "")))
      ∧ rec.sub_parcel = pyStrip (pyStr (dictGetD client "sub_parcel" (.str "")))
      ∧ pyFloat (dictGetD client "area_sqm" (.int 0)) = .ok rec.area_sqm
      ∧ rec.registered_owner = .str ""
      ∧ rec.has_mortgage = .bool false
      ∧ rec.has_lien = .bool false
      ∧ rec.has_warning_note = .bool false
      ∧ rec.rights_type = .str ""
      ∧ rec.zoning = .str ""
      ∧ rec.has_violations = .bool false) := by
  constructor
  · intro hne hm
    have hocr : ocr.isEmpty = false := by
      cases ocr with
      | nil => exact absurd rfl hne
      | cons a l => rfl
    simp only [merge_and_clean, Option.getD_some, hocr, Bool.not_false, if_true] at hm
    cases hA : pyFloat (dictGetD ocr "area_sqm" (dictGetD client "area_sqm" (PyVal.int 0))) with
    | error e => rw [hA] at hm; exact Except.noConfusion hm
    | ok area =>
      rw [hA] at hm
      cases hB : pyFloat (dictGetD client "rooms" (PyVal.int 0)) with
      | error e => rw [hB] at hm; exact Except.noConfusion hm
      | ok rooms =>
        rw [hB] at hm
        cases hC : (if truthy (dictGetN client "floor") = true
            then pyInt (dictGetD client "floor" (PyVal.int 0)) else Except.ok 0) with
        | error e => rw [hC] at hm; exact Except.noConfusion hm
        | ok floor =>
          rw [hC] at hm
          cases hD : clean_price (dictGetD client "price" (PyVal.int 0)) with
          | error e => rw [hD] at hm; exact Except.noConfusion hm
          | ok price =>
            rw [hD] at hm
            injection hm with h
            subst h
            exact ⟨rfl, rfl, rfl, rfl, rfl, rfl, rfl, rfl, rfl, rfl, rfl⟩
  · intro hm
    simp only [merge_and_clean, Option.getD_none, List.isEmpty_nil, Bool.not_true,
      Bool.false_eq_true, if_false] at hm
    cases hA : pyFloat (dictGetD client "area_sqm" (PyVal.int 0)) with
    | error e => rw [hA] at hm; exact Except.noConfusion hm
    | ok area =>
      rw [hA] at hm
      cases hB : pyFloat (dictGetD client "rooms" (PyVal.int 0)) with
      | error e => rw [hB] at hm; exact Except.noConfusion hm
      | ok rooms =>
        rw [hB] at hm
        cases hC : (if truthy (dictGetN client "floor") = true
            then pyInt (dictGetD client "floor" (PyVal.int 0)) else Except.ok 0) with
        | error e => rw [hC] at hm; exact Except.noConfusion hm
        | ok floor =>
          rw [hC] at hm
          cases hD : clean_price (dictGetD client "price" (PyVal.int 0)) with
          | error e => rw [hD] at hm; exact Except.noConfusion hm
          | ok price =>
            rw [hD] at hm
            injection hm with h
            subst h
            exact ⟨rfl, rfl, rfl, rfl, rfl, rfl, rfl, rfl, rfl, rfl, rfl⟩

/-- Witness for C4: client block_number 100 with OCR block_number 200
yields 200; with the OCR mapping omitted it stays 100. -/
theorem C4_witness :
    (match merge_and_clean "t" [("block_number", PyVal.str "100")]
        (some [("block_number", PyVal.str "200")]) with
     | .ok rec => rec.block_number = "200"
     | .error _ => False)
    ∧ (match merge_and_clean "t" [("block_number", PyVal.str "100")] Option.none with
     | .ok rec => rec.block_number = "100"
     | .error _ => False) := by
  constructor
  · cases hm : merge_and_clean "t" [("block_number", PyVal.str "100")]
        (some [("block_number", PyVal.str "200")]) with
    | error e =>
        cases e
        exact absurd hm (by decide)
    | ok rec =>
        have h := (C4_ocr_precedence "t" [("block_number", PyVal.str "100")]
            [("block_number", PyVal.str "200")] rec).1 (by decide) hm
        show rec.block_number = "200"
        rw [h.1]
        decide
  · cases hm : merge_and_clean "t" [("block_number", PyVal.str "100")] Option.none with
    | error e =>
        cases e
        exact absurd hm (by decide)
    | ok rec =>
        have h := (C4_ocr_precedence "t" [("block_number", PyVal.str "100")] [] rec).2 hm
        show rec.block_number = "100"
        rw [h.1]
        decide

/-- Witness for C2: a noisy but well-formed price string degrades to its
parsed value and merge_and_clean succeeds on it. -/
theorem C2_witness :
    clean_price (PyVal.str "750000 NIS") = .ok 750000
    ∧ ∃ rec : CleanRecord,
        merge_and_clean "now" [("price", PyVal.str "750000 NIS")] Option.none = .ok rec
        ∧ rec.price = 750000 := by
  have h := C2_price_only_degrades (PyVal.str "750000 NIS")
  have hp : clean_price (PyVal.str "750000 NIS") = .ok 750000 :=
    h.2.2.1 750000 (by decide) (by decide)
  exact ⟨hp, h.2.2.2 750000 hp⟩

/-- A conditional deduction of min-capped form equals the plain min when
the cap is non-negative. -/
theorem dedIf_eq_min (n : Nat) (k m : Int) (hm : 0 ≤ m) :
    (if n ≠ 0 then min ((n : Int) * k) m else 0) = min ((n : Int) * k) m := by
  by_cases h : n = 0
  · subst h
    simp [min_eq_left hm]
  · simp [h]

/-- C5: the quality score is 100 minus the capped completeness deduction,
the capped critical and high compliance deductions, the four risk-flag
deductions, and the price-sanity deduction, clamped to the 0..100 range;
it always lies in that range, and the record and compliance result hitting
every deduction score exactly 0. -/
theorem C5_quality_score (data : CleanRecord) (compliance : ComplianceResult) :
    ((calculate_quality_score data compliance).score
      = max 0 (min 100 (100
          - min ((missingCount data : Int) * 3) 30
          - min ((compliance.critical_failures.length : Int) * 10) 30
          - min ((compliance.high_failures.length : Int) * 5) 10
          - (if truthy data.has_mortgage then 5 else 0)
          - (if truthy data.has_lien then 10 else 0)
          - (if truthy data.has_violations then 5 else 0)
          - (if truthy data.has_warning_note then 3 else 0)
          - (if data.price / max data.area_sqm 1 < 5000
                ∨ 200000 < data.price / max data.area_sqm 1
             then 10 else 0))))
    ∧ 0 ≤ (calculate_quality_score data compliance).score
    ∧ (calculate_quality_score data compliance).score ≤ 100
    ∧ (calculate_quality_score zeroRecord fullFailCompliance).score = 0 := by
  refine ⟨?_, ?_, ?_, ?_⟩
  · simp only [calculate_quality_score]
    rw [dedIf_eq_min _ _ _ (by norm_num), dedIf_eq_min _ _ _ (by norm_num),
      dedIf_eq_min _ _ _ (by norm_num)]
  · simp only [calculate_quality_score]
    exact le_max_left _ _
  · simp only [calculate_quality_score]
    exact max_le (by norm_num) (min_le_left _ _)
  · have hppsm : (zeroRecord.price / max zeroRecord.area_sqm 1 < 5000
        ∨ 200000 < zeroRecord.price / max zeroRecord.area_sqm 1) := by
      left
      show (0 : ℚ) / max 0 1 < 5000
      norm_num
    simp only [calculate_quality_score]
    rw [if_pos hppsm]
    decide

/-- C6: the compliance verdict is true iff every critical-severity check
passed (high and medium failures never block it), and the critical and
high failure lists contain exactly the failed entries of those
severities. -/
theorem C6_compliance (now : String) (data : CleanRecord) :
    ((run_compliance_check now data).compliant = true ↔
      ∀ c ∈ COMPLIANCE_CHECKS, c.severity = "critical" → c.check data = true)
    ∧ (∀ r : CEntry, r ∈ (run_compliance_check now data).critical_failures ↔
        (r ∈ (run_compliance_check now data).details
          ∧ r.passed = false ∧ r.severity = "critical"))
    ∧ (∀ r : CEntry, r ∈ (run_compliance_check now data).high_failures ↔
        (r ∈ (run_compliance_check now data).details
          ∧ r.passed = false ∧ r.severity = "high")) := by
  refine ⟨?_, ?_, ?_⟩
  · constructor
    · intro h c hc hcrit
      by_contra hfail
      rw [Bool.not_eq_true] at hfail
      have hent : (CEntry.mk c.id c.law_ref c.description c.severity (c.check data))
          ∈ (run_compliance_check now data).critical_failures := by
        simp only [run_compliance_check]
        rw [List.mem_filter]
        refine ⟨List.mem_map_of_mem _ hc, ?_⟩
        simp [hfail, hcrit]
      have hfalse : (run_compliance_check now data).compliant = false := by
        simp only [run_compliance_check] at hent ⊢
        exact isEmpty_false_of_mem hent
      rw [h] at hfalse
      exact Bool.noConfusion hfalse
    · intro h
      simp only [run_compliance_check]
      rw [List.isEmpty_eq_true, List.filter_eq_nil_iff]
      intro e he
      obtain ⟨c, hc, rfl⟩ := List.mem_map.mp he
      simp only [Bool.and_eq_true, Bool.not_eq_true', decide_eq_true_eq, not_and]
      intro hpass hsev
      rw [h c hc hsev] at hpass
      exact Bool.noConfusion hpass
  · intro r
    simp only [run_compliance_check]
    rw [List.mem_filter]
    simp [Bool.and_eq_true, Bool.not_eq_true', decide_eq_true_eq, and_assoc]
  · intro r
    simp only [run_compliance_check]
    rw [List.mem_filter]
    simp [Bool.and_eq_true, Bool.not_eq_true', decide_eq_true_eq, and_assoc]

/-- C8: for a nested record with exactly one seller and one buyer, the
denormalize-normalize round trip reproduces the primary seller name, the
primary buyer name, and (when it was a string) the property block number
as the same string value. -/
theorem C8_round_trip (n : NestedRec) (hs : n.sellers.length = 1)
    (hb : n.buyers.length = 1) :
    ((denormalize_transaction (normalize_transaction n)).sellers.map Party.name).head?
        = (n.sellers.map Party.name).head?
    ∧ ((denormalize_transaction (normalize_transaction n)).buyers.map Party.name).head?
        = (n.buyers.map Party.name).head?
    ∧ (∀ s : String, n.property.block_number = .str s →
        (denormalize_transaction (normalize_transaction n)).property.block_number = s) := by
  refine ⟨?_, ?_, ?_⟩
  · simp [normalize_transaction, denormalize_transaction]
  · simp [normalize_transaction, denormalize_transaction]
  · intro s hbl
    simp [normalize_transaction, denormalize_transaction, hbl, pyStr]

/-- Witness for C8: a concrete one-seller one-buyer record with string
block number 777 round-trips those three values. -/
theorem C8_witness :
    (((denormalize_transaction (normalize_transaction
        ⟨[⟨"משה לוי", "123456782", "רחוב א", "0501234567", "a@b.co", "married"⟩],
         [⟨"דוד כהן", "987654324", "רחוב ב", "0529876543", "c@d.co", "single"⟩],
         ⟨"ברנבאו", .str "777", .str "444", .str "1", .int 1500, .int 8, .int 10,
          "apartment", "underground", "yes"⟩,
         ⟨.int 2200000, "2026-02-24", "2026-05-10"⟩, "הערות"⟩)).sellers.map
            Party.name).head? = some "משה לוי")
    ∧ ((denormalize_transaction (normalize_transaction
        ⟨[⟨"משה לוי", "123456782", "רחוב א", "0501234567", "a@b.co", "married"⟩],
         [⟨"דוד כהן", "987654324", "רחוב ב", "0529876543", "c@d.co", "single"⟩],
         ⟨"ברנבאו", .str "777", .str "444", .str "1", .int 1500, .int 8, .int 10,
          "apartment", "underground", "yes"⟩,
         ⟨.int 2200000, "2026-02-24", "2026-05-10"⟩, "הערות"⟩)).property.block_number
        = "777") := by
  have h := C8_round_trip
      ⟨[⟨"משה לוי", "123456782", "רחוב א", "0501234567", "a@b.co", "married"⟩],
       [⟨"דוד כהן", "987654324", "רחוב ב", "0529876543", "c@d.co", "single"⟩],
       ⟨"ברנבאו", .str "777", .str "444", .str "1", .int 1500, .int 8, .int 10,
        "apartment", "underground", "yes"⟩,
       ⟨.int 2200000, "2026-02-24", "2026-05-10"⟩, "הערות"⟩ rfl rfl
  refine ⟨?_, h.2.2 "777" rfl⟩
  rw [h.1]
  rfl
